import Mathlib

/-!
Shallow embedding of the reconciliation core of the stack-aws repository.

The embedding follows `src/pkg/controller/compute/eks.go` (the EKSCluster
reconciler: `Reconcile`, `_create`, `_sync`, `_delete`, `fail`),
`src/apis/compute/v1alpha2/types.go` (the referencer `Assign` methods and
the EKSCluster data model), and the IAMRolePolicyAttachment external
client, whose behaviour is fixed by its unit tests in
`src/pkg/controller/identity/iamrolepolicyattachment/controller_test.go`
and by the spec (the controller source itself is not in the repository
snapshot, so those operations are modelled from the spec, as marked).

Provider calls (the `eks.Client`, CloudFormation and IAM SDK calls) are
opaque collaborators: each pass receives their responses as explicit
oracle values, and the embedding records which calls a pass issues so
that ordering and call-count properties can be stated.
-/

namespace StackAWS

/-- Condition mirrors the crossplane-runtime `v1alpha1.Condition`: a typed
status flag with a reason and message.  `LastTransitionTime` is not
modelled (no claim mentions it).  Status is one of the strings
"True", "False", "Unknown". -/
structure Condition where
  ctype   : String
  status  : String
  reason  : String
  message : String
deriving DecidableEq, Repr

/-- setCondition mirrors `ConditionedStatus.SetConditions` for a single
condition: it replaces any existing condition of the same type, keeping
the type-uniqueness invariant, and appends otherwise. -/
def setCondition (cs : List Condition) (c : Condition) : List Condition :=
  if cs.any (fun x => x.ctype == c.ctype) then
    cs.map (fun x => if x.ctype == c.ctype then c else x)
  else
    cs ++ [c]

/-- getCondition mirrors `ConditionedStatus.GetCondition`: the unique
condition of the given type, if present. -/
def getCondition (cs : List Condition) (t : String) : Option Condition :=
  cs.find? (fun c => c.ctype == t)

/-- isConditionTrue mirrors `resource.IsConditionTrue`: true exactly when
the condition exists and its status is "True" (the zero-value condition
returned for an absent type has an empty status). -/
def isConditionTrue : Option Condition → Bool
  | some c => c.status == "True"
  | none   => false

/-- Condition constructors used by eks.go, mirroring the
crossplane-runtime `v1alpha1` helpers.  The reason strings are symbolic
labels standing for the runtime constants. -/
def condCreating : Condition := ⟨"Ready", "False", "Creating", ""⟩

/-- Deleting condition, mirroring `runtimev1alpha1.Deleting()`. -/
def condDeleting : Condition := ⟨"Ready", "False", "Deleting", ""⟩

/-- Available condition, mirroring `runtimev1alpha1.Available()`. -/
def condAvailable : Condition := ⟨"Ready", "True", "Available", ""⟩

/-- ReconcileSuccess condition, mirroring
`runtimev1alpha1.ReconcileSuccess()` (type Synced, status True). -/
def reconcileSuccess : Condition := ⟨"Synced", "True", "ReconcileSuccess", ""⟩

/-- ReconcileError condition carrying the error message, mirroring
`runtimev1alpha1.ReconcileError(err)` (type Synced, status False). -/
def reconcileError (msg : String) : Condition :=
  ⟨"Synced", "False", "ReconcileError", msg⟩

/-- ReferenceResolutionSuccess condition, mirroring
`runtimev1alpha1.ReferenceResolutionSuccess()`. -/
def referenceResolutionSuccess : Condition :=
  ⟨"ReferencesResolved", "True", "ReferenceResolutionSuccess", ""⟩

/-- ReferenceResolutionBlocked condition carrying the error message,
mirroring `runtimev1alpha1.ReferenceResolutionBlocked(err)`. -/
def referenceResolutionBlocked (msg : String) : Condition :=
  ⟨"ReferencesResolved", "False", "ReferenceResolutionBlocked", msg⟩

/-- ReconcileResult mirrors `reconcile.Result`: `requeue` is the boolean
`Requeue` field and `requeueAfter` is `RequeueAfter` in seconds
(0 when the Go code leaves the field unset). -/
structure ReconcileResult where
  requeue      : Bool
  requeueAfter : Nat
deriving DecidableEq, Repr

/-- aShortWait is the 30-second requeue delay of eks.go. -/
def aShortWait : Nat := 30

/-- aLongWait is the 60-second requeue delay of eks.go. -/
def aLongWait : Nat := 60

/-- finalizer name constant of eks.go:
`"finalizer.eks.compute.aws.crossplane.io"`. -/
def finalizer : String := "finalizer.eks.compute.aws.crossplane.io"

/-- clusterNamePrefix constant of eks.go. -/
def clusterNamePrefix : String := "eks-"

/-- AWSErr classifies a non-nil provider error the way eks.go's guards do:
`eks.IsErrorAlreadyExists`, `eks.IsErrorBadRequest`,
`eks.IsErrorNotFound` / `cloudformationclient.IsErrorNotFound`. -/
inductive AWSErr
  | alreadyExists
  | badRequest
  | notFound
  | other (msg : String)
deriving DecidableEq, Repr

/-- isErrorAlreadyExists mirrors `eks.IsErrorAlreadyExists`. -/
def isErrorAlreadyExists : AWSErr → Bool
  | .alreadyExists => true
  | _              => false

/-- isErrorBadRequest mirrors `eks.IsErrorBadRequest`. -/
def isErrorBadRequest : AWSErr → Bool
  | .badRequest => true
  | _           => false

/-- isErrorNotFound mirrors `eks.IsErrorNotFound` (and the CloudFormation
variant used for the worker stack). -/
def isErrorNotFound : AWSErr → Bool
  | .notFound => true
  | _         => false

/-- errMessage renders the provider error as the string interpolated into
condition messages (`err.Error()` in Go). -/
def errMessage : AWSErr → String
  | .alreadyExists => "ResourceInUseException"
  | .badRequest    => "InvalidParameterException"
  | .notFound      => "ResourceNotFoundException"
  | .other m       => m

/-- EKSSpec carries the EKSClusterSpec fields the reconciler reads or that
reference resolution assigns (types.go): the reclaim policy, the
literal reference-target fields, and the worker control-plane security
group.  `reclaimDelete` is true when `Spec.ReclaimPolicy` is
`ReclaimDelete`. -/
structure EKSSpec where
  reclaimDelete        : Bool
  region               : String
  roleARN              : String
  vpcID                : String
  subnetIDs            : List String
  securityGroupIDs     : List String
  workerControlPlaneSG : String
deriving DecidableEq, Repr

/-- EKSStatus mirrors EKSClusterStatus of types.go: the condition set plus
the provisioning-stage markers.  `bindable` stands for the binding
phase set by `resource.SetBindable`. -/
structure EKSStatus where
  conditions            : List Condition
  state                 : String
  clusterName           : String
  clusterVersion        : String
  endpoint              : String
  cloudFormationStackID : String
  bindable              : Bool
deriving DecidableEq, Repr

/-- EKSCluster mirrors the managed resource: object metadata the loop
reads (uid, deletion timestamp, finalizers) plus Spec and Status. -/
structure EKSCluster where
  uid               : String
  deletionTimestamp : Option String
  finalizers        : List String
  spec              : EKSSpec
  status            : EKSStatus
deriving DecidableEq, Repr

/-- setStatusConditions applies `instance.Status.SetConditions(c...)`. -/
def setStatusConditions (i : EKSCluster) (cs : List Condition) : EKSCluster :=
  { i with status := { i.status with conditions := cs.foldl setCondition i.status.conditions } }

/-- addFinalizer mirrors `meta.AddFinalizer`: append the finalizer unless
it is already present. -/
def addFinalizer (i : EKSCluster) (f : String) : EKSCluster :=
  if i.finalizers.contains f then i
  else { i with finalizers := i.finalizers ++ [f] }

/-- removeFinalizer mirrors `meta.RemoveFinalizer`: drop every occurrence
of the finalizer. -/
def removeFinalizer (i : EKSCluster) (f : String) : EKSCluster :=
  { i with finalizers := i.finalizers.filter (fun x => x ≠ f) }

/-- fail mirrors the `fail` helper of eks.go: set the ReconcileError
condition and requeue after a short wait (the status write itself is a
collaborator and is modelled as succeeding). -/
def fail (i : EKSCluster) (msg : String) : EKSCluster × ReconcileResult :=
  (setStatusConditions i [reconcileError msg], ⟨false, aShortWait⟩)

/-- EKSClusterExt mirrors `eks.Cluster`, the provider-side object returned
by the eks client: its status string, endpoint, CA material and
version. -/
structure EKSClusterExt where
  status   : String
  endpoint : String
  ca       : String
  version  : String
deriving DecidableEq, Repr

/-- createBranch embeds `_create` of eks.go.  `createRes` is the oracle
for `client.Create(clusterName, instance.Spec)`: the returned cluster
value together with the optional error, mirroring Go's multi-value
return.  The branch sets Creating, and unless the error is non-nil and
not already-exists, records the cluster version, the CREATING state and
the cluster name, sets ReconcileSuccess and requeues after a short
wait.  A bad-request error sets ReconcileError and returns an empty
result; any other error goes through `fail`. -/
def createBranch (createRes : EKSClusterExt × Option AWSErr) (i : EKSCluster) :
    EKSCluster × ReconcileResult :=
  let i := setStatusConditions i [condCreating]
  let clusterName := clusterNamePrefix ++ i.uid
  let success : EKSCluster × ReconcileResult :=
    let st := { i.status with
                clusterVersion := (createRes.1).version
                state := "CREATING"
                clusterName := clusterName }
    (setStatusConditions { i with status := st } [reconcileSuccess], ⟨false, aShortWait⟩)
  match createRes.2 with
  | some e =>
      if ¬ isErrorAlreadyExists e then
        if isErrorBadRequest e then
          (setStatusConditions i [reconcileError (errMessage e)], ⟨false, 0⟩)
        else
          fail i (errMessage e)
      else success
  | none => success

/-- joinStrings mirrors Go `strings.Join`: concatenate with the separator
between elements. -/
def joinStrings (sep : String) : List String → String
  | []        => ""
  | [a]       => a
  | a :: rest => a ++ sep ++ joinStrings sep rest

/-- DeleteCall records one provider deletion request issued by the Delete
branch, in issue order. -/
inductive DeleteCall
  | master  (clusterName : String)
  | workers (stackID : String)
deriving DecidableEq, Repr

/-- deleteBranch embeds `_delete` of eks.go.  `masterRes` and `workersRes`
are the oracles for `client.Delete(clusterName)` and
`client.DeleteWorkerNodes(stackID)` (none = nil error).  It sets the
Deleting condition; under ReclaimDelete it requests master deletion,
then (if a stack ID is recorded) worker deletion, collecting every
error that is not a not-found into `deleteErrors`; a non-empty list
goes through `fail` with the comma-joined combined message and the
finalizer is kept, otherwise the finalizer is removed and
ReconcileSuccess is set with no requeue.  The third component is the
ordered list of deletion calls issued. -/
def deleteBranch (masterRes workersRes : Option AWSErr) (i : EKSCluster) :
    EKSCluster × ReconcileResult × List DeleteCall :=
  let i := setStatusConditions i [condDeleting]
  if i.spec.reclaimDelete then
    let masterCalls : List DeleteCall := [.master i.status.clusterName]
    let masterErrs : List String :=
      match masterRes with
      | some e => if ¬ isErrorNotFound e then ["Master Delete Error: " ++ errMessage e] else []
      | none => []
    let workerCalls : List DeleteCall :=
      if i.status.cloudFormationStackID ≠ "" then [.workers i.status.cloudFormationStackID] else []
    let workerErrs : List String :=
      if i.status.cloudFormationStackID ≠ "" then
        match workersRes with
        | some e => if ¬ isErrorNotFound e then ["Worker Delete Error: " ++ errMessage e] else []
        | none => []
      else []
    let deleteErrors := masterErrs ++ workerErrs
    let calls := masterCalls ++ workerCalls
    if deleteErrors ≠ [] then
      let out := fail i (joinStrings ", " deleteErrors)
      (out.1, out.2, calls)
    else
      let i := removeFinalizer i finalizer
      (setStatusConditions i [reconcileSuccess], ⟨false, 0⟩, calls)
  else
    let i := removeFinalizer i finalizer
    (setStatusConditions i [reconcileSuccess], ⟨false, 0⟩, [])

/-- CFStatus classifies a CloudFormation stack status the way eks.go's
`completedCFState` and `failedCFState` maps do. -/
inductive CFStatus
  | createComplete
  | updateComplete
  | createFailed
  | rollbackComplete
  | rollbackFailed
  | deleteComplete
  | deleteFailed
  | inProgress
deriving DecidableEq, Repr

/-- completedCFState mirrors the `completedCFState` map of eks.go. -/
def completedCFState : CFStatus → Bool
  | .createComplete => true
  | .updateComplete => true
  | _               => false

/-- failedCFState mirrors the `failedCFState` map of eks.go. -/
def failedCFState : CFStatus → Bool
  | .createFailed     => true
  | .rollbackComplete => true
  | .rollbackFailed   => true
  | .deleteComplete   => true
  | .deleteFailed     => true
  | _                 => false

/-- ClusterWorker mirrors the worker-node stack observation returned by
`client.GetWorkerNodes`. -/
structure ClusterWorker where
  workersStatus : CFStatus
  workerReason  : String
  workerARN     : String
deriving DecidableEq, Repr

/-- SyncOracle packages the provider responses consumed by one `_sync`
pass: `client.Get`, `client.CreateWorkerNodes` (the WorkerStackID on
success), `client.GetWorkerNodes`, and the outcomes of the `awsauth`
and `secret` helpers (none = success). -/
structure SyncOracle where
  get           : Except String EKSClusterExt
  createWorkers : Except String String
  getWorkers    : Except String ClusterWorker
  awsauthErr    : Option String
  secretErr     : Option String

/-- syncBranch embeds `_sync` of eks.go: observe the cluster; while not
ACTIVE, requeue after a short wait; create the worker stack once (only
when no stack ID is recorded) and persist its ID; poll the stack,
failing on a terminal failed state and waiting on an incomplete one;
once complete, push the auth config map, publish the connection secret,
record endpoint and ACTIVE state, and set Available and
ReconcileSuccess with a long requeue. -/
def syncBranch (o : SyncOracle) (i : EKSCluster) : EKSCluster × ReconcileResult :=
  match o.get with
  | .error e => fail i e
  | .ok cluster =>
    if cluster.status ≠ "ACTIVE" then
      (setStatusConditions i [reconcileSuccess], ⟨false, aShortWait⟩)
    else if i.status.cloudFormationStackID == "" then
      match o.createWorkers with
      | .error e => fail i e
      | .ok stackID =>
        let i := { i with status := { i.status with cloudFormationStackID := stackID } }
        (setStatusConditions i [reconcileSuccess], ⟨false, aShortWait⟩)
    else
      match o.getWorkers with
      | .error e => fail i e
      | .ok worker =>
        if failedCFState worker.workersStatus then
          fail i ("clusterworker stack failed with status " ++ worker.workerReason)
        else if ¬ completedCFState worker.workersStatus then
          (setStatusConditions i [reconcileSuccess], ⟨false, aShortWait⟩)
        else
          match o.awsauthErr with
          | some e => fail i ("failed to set auth map on eks: " ++ e)
          | none =>
            match o.secretErr with
            | some e => fail i e
            | none =>
              let i := { i with status := { i.status with
                          endpoint := cluster.endpoint, state := "ACTIVE", bindable := true } }
              (setStatusConditions i [condAvailable, reconcileSuccess], ⟨false, aLongWait⟩)

/-- RefErr is the error returned by `ResolveReferences`;
`resource.IsReferencesAccessError` distinguishes the blocked case
(a referenced resource NotFound or NotReady) from other failures. -/
inductive RefErr
  | access (msg : String)
  | other  (msg : String)
deriving DecidableEq, Repr

/-- isReferencesAccessError mirrors `resource.IsReferencesAccessError`. -/
def isReferencesAccessError : RefErr → Bool
  | .access _ => true
  | .other _  => false

/-- refErrMessage renders the resolution error message. -/
def refErrMessage : RefErr → String
  | .access m => m
  | .other m  => m

/-- Reconciler mirrors the injectable fields of the Go `Reconciler`
struct: the branch functions `create`, `sync`, `delete` (wired to
`_create`, `_sync`, `_delete` in `SetupWithManager`), the reference
resolver, and the connect step (none = a working client; some e = the
connect error). -/
structure Reconciler where
  create            : EKSCluster → EKSCluster × ReconcileResult
  sync              : EKSCluster → EKSCluster × ReconcileResult
  delete            : EKSCluster → EKSCluster × ReconcileResult
  resolveReferences : EKSCluster → Except RefErr EKSCluster
  connectErr        : Option String

/-- Reconciler.reconcile embeds `Reconcile` of eks.go from the point the
instance has been fetched: connect (failure goes through `fail`); if
the ReferencesResolved condition is not True, run resolution — on error
set ReferenceResolutionBlocked for an access error and ReconcileError
otherwise, and return with a long-wait requeue; on success set
ReferenceResolutionSuccess.  Then add the finalizer and dispatch: the
delete branch when a deletion timestamp is set, the create branch when
no cluster name is recorded, the sync branch otherwise. -/
def Reconciler.reconcile (r : Reconciler) (inst : EKSCluster) :
    EKSCluster × ReconcileResult :=
  match r.connectErr with
  | some e => fail inst e
  | none =>
    let afterResolve : Except (EKSCluster × ReconcileResult) EKSCluster :=
      if isConditionTrue (getCondition inst.status.conditions "ReferencesResolved") then
        .ok inst
      else
        match r.resolveReferences inst with
        | .error e =>
          let condition :=
            if isReferencesAccessError e then referenceResolutionBlocked (refErrMessage e)
            else reconcileError (refErrMessage e)
          .error (setStatusConditions inst [condition], ⟨false, aLongWait⟩)
        | .ok resolved =>
          .ok (setStatusConditions resolved [referenceResolutionSuccess])
    match afterResolve with
    | .error out => out
    | .ok inst =>
      let inst := addFinalizer inst finalizer
      if inst.deletionTimestamp.isSome then
        r.delete inst
      else if inst.status.clusterName == "" then
        r.create inst
      else
        r.sync inst

/-- mkReconciler wires the concrete branch embeddings the way
`SetupWithManager` wires `_create`, `_sync` and `_delete`, given the
provider oracles for one pass. -/
def mkReconciler (createRes : EKSClusterExt × Option AWSErr)
    (masterRes workersRes : Option AWSErr) (so : SyncOracle)
    (resolve : EKSCluster → Except RefErr EKSCluster) : Reconciler where
  create := createBranch createRes
  sync := syncBranch so
  delete := fun i => ((deleteBranch masterRes workersRes i).1, (deleteBranch masterRes workersRes i).2.1)
  resolveReferences := resolve
  connectErr := none

/-- IAMErr classifies a non-nil IAM SDK error the way the
IAMRolePolicyAttachment controller does: `NoSuchEntityException`
versus anything else. -/
inductive IAMErr
  | noSuchEntity
  | other (msg : String)
deriving DecidableEq, Repr

/-- isErrNoSuchEntity recognises `iam.ErrCodeNoSuchEntityException`. -/
def isErrNoSuchEntity : IAMErr → Bool
  | .noSuchEntity => true
  | _             => false

/-- iamErrMessage renders the IAM error as a message string. -/
def iamErrMessage : IAMErr → String
  | .noSuchEntity => "NoSuchEntity"
  | .other m      => m

/-- IAMCall records one IAM provider request issued by the attachment
client, in issue order. -/
inductive IAMCall
  | attach (roleName policyARN : String)
  | detach (roleName policyARN : String)
deriving DecidableEq, Repr

/-- IAMRolePolicyAttachment carries the fields of the managed resource the
external client reads and writes: the desired policy ARN and role name
from the Spec, the attached policy ARN recorded in Status, and the
condition set. -/
structure IAMRolePolicyAttachment where
  specPolicyARN           : String
  specRoleName            : String
  statusAttachedPolicyARN : String
  conditions              : List Condition
deriving DecidableEq, Repr

/-- Modelled from the spec: the IAMRolePolicyAttachment controller source
(`external.Update`) is not in the repository snapshot; only its unit
tests are (controller_test.go, Test_Update).  Per spec §4.2 (compute
the minimal delta: attach what is missing, detach what is extra, not
full replace) and the §8 scenario, and matching every Test_Update row:
when a policy is recorded as attached and differs from the desired
policy, attach the desired policy and then detach the recorded one,
stopping after a failed attach; otherwise issue no call and succeed.
Update does not touch the condition set.  `attachErr`/`detachErr` are
the oracles for the two SDK calls (none = success); the second
component is the ordered list of calls issued; the third is the
returned error. -/
def iamUpdate (attachErr detachErr : Option IAMErr) (cr : IAMRolePolicyAttachment) :
    IAMRolePolicyAttachment × List IAMCall × Option String :=
  if cr.statusAttachedPolicyARN ≠ "" ∧ cr.statusAttachedPolicyARN ≠ cr.specPolicyARN then
    match attachErr with
    | some e => (cr, [.attach cr.specRoleName cr.specPolicyARN], some (iamErrMessage e))
    | none =>
      match detachErr with
      | some e => (cr, [.attach cr.specRoleName cr.specPolicyARN,
                        .detach cr.specRoleName cr.statusAttachedPolicyARN],
                   some (iamErrMessage e))
      | none => (cr, [.attach cr.specRoleName cr.specPolicyARN,
                      .detach cr.specRoleName cr.statusAttachedPolicyARN], none)
  else
    (cr, [], none)

/-- Modelled from the spec: the IAMRolePolicyAttachment controller source
(`external.Observe`) is not in the repository snapshot; only its unit
tests are (controller_test.go, Test_Observe).  Per spec §4.2 Observe
and matching the tests: list the policies attached to the role
(`listRes` is the oracle, the attached policy ARNs); if the desired
policy is among them the resource exists — set Available and record
the attached ARN in Status; otherwise it does not exist.  The middle
component is `ResourceExists`. -/
def iamObserve (listRes : Except String (List String)) (cr : IAMRolePolicyAttachment) :
    IAMRolePolicyAttachment × Bool × Option String :=
  match listRes with
  | .error e => (cr, false, some e)
  | .ok attached =>
    match attached.find? (fun p => p == cr.specPolicyARN) with
    | none => (cr, false, none)
    | some p =>
      ({ cr with conditions := setCondition cr.conditions condAvailable,
                 statusAttachedPolicyARN := p }, true, none)

/-- Modelled from the spec: the IAMRolePolicyAttachment controller source
(`external.Create`) is not in the repository snapshot; only its unit
tests are (controller_test.go, Test_Create).  Matching the tests: set
the Creating condition and attach the desired policy to the role;
`attachErr` is the SDK oracle.  -/
def iamCreate (attachErr : Option IAMErr) (cr : IAMRolePolicyAttachment) :
    IAMRolePolicyAttachment × List IAMCall × Option String :=
  let cr := { cr with conditions := setCondition cr.conditions condCreating }
  (cr, [.attach cr.specRoleName cr.specPolicyARN], attachErr.map iamErrMessage)

/-- Modelled from the spec: the IAMRolePolicyAttachment controller source
(`external.Delete`) is not in the repository snapshot; only its unit
tests are (controller_test.go, Test_Delete).  Per spec §4.2 Delete
(treat not-found as success) and matching the tests: set the Deleting
condition and detach the desired policy; a `NoSuchEntityException`
from the SDK is success, any other error is returned. -/
def iamDelete (detachErr : Option IAMErr) (cr : IAMRolePolicyAttachment) :
    IAMRolePolicyAttachment × List IAMCall × Option String :=
  let cr := { cr with conditions := setCondition cr.conditions condDeleting }
  let err := match detachErr with
    | some e => if isErrNoSuchEntity e then none else some (iamErrMessage e)
    | none => none
  (cr, [.detach cr.specRoleName cr.specPolicyARN], err)

/-- sampleSpec is a concrete EKSClusterSpec under the ReclaimDelete
policy, used by the concrete evaluations below. -/
def sampleSpec : EKSSpec :=
  ⟨true, "us-west-2", "arn:aws:iam::123:role/eks", "vpc-1", ["sn-1", "sn-2"], ["sg-1"], "sg-cp"⟩

/-- freshStatus is the empty status of a resource that has never been
provisioned. -/
def freshStatus : EKSStatus := ⟨[], "", "", "", "", "", false⟩

/-- provisionedStatus is the status of a resource whose cluster and worker
stack have been requested. -/
def provisionedStatus : EKSStatus := ⟨[], "ACTIVE", "eks-u1", "1.14", "", "stack-1", false⟩

/-- instFresh is a freshly created resource: no deletion requested, no
conditions, nothing provisioned. -/
def instFresh : EKSCluster := ⟨"u1", none, [], sampleSpec, freshStatus⟩

/-- instDeleting is a provisioned resource whose deletion has been
requested and whose references were never recorded as resolved. -/
def instDeleting : EKSCluster := ⟨"u1", some "2019-10-22", [finalizer], sampleSpec, provisionedStatus⟩

/-- clusterExt0 is a concrete provider-side cluster observation. -/
def clusterExt0 : EKSClusterExt := ⟨"ACTIVE", "https://endpoint", "Q0E=", "1.14"⟩

/-- syncOracle0 is a concrete all-success sync oracle. -/
def syncOracle0 : SyncOracle :=
  ⟨.ok clusterExt0, .ok "stack-1", .ok ⟨.createComplete, "", "arn:worker"⟩, none, none⟩

/-- blockedResolve is a resolver whose pass is blocked: a referenced
resource is NotFound or NotReady, which `ResolveReferences` reports as
a references-access error. -/
def blockedResolve : EKSCluster → Except RefErr EKSCluster :=
  fun _ => .error (.access "referenced resource is not ready")

/-- reconcilerBlocked is the concrete reconciler wired like
`SetupWithManager`, with every provider call succeeding but reference
resolution blocked. -/
def reconcilerBlocked : Reconciler :=
  mkReconciler (clusterExt0, none) none none syncOracle0 blockedResolve

/-- A replaced condition is found by a lookup for its type: auxiliary
induction for the replace arm of `setCondition`. -/
theorem find_replaced_condition (c : Condition) :
    ∀ cs : List Condition, cs.any (fun x => x.ctype == c.ctype) = true →
      (cs.map (fun x => if x.ctype == c.ctype then c else x)).find?
        (fun d => d.ctype == c.ctype) = some c := by
  intro cs
  induction cs with
  | nil => intro h; simp at h
  | cons x xs ih =>
    intro h
    cases hx : (x.ctype == c.ctype) with
    | true =>
      rw [List.map_cons, List.find?_cons, if_pos hx]
      simp
    | false =>
      have h2 : xs.any (fun y => y.ctype == c.ctype) = true := by
        simpa [List.any_cons, hx] using h
      rw [List.map_cons, List.find?_cons, if_neg (by simp [hx])]
      simp only [hx]
      exact ih h2

/-- A lookup skips a list in which no condition has the sought type:
auxiliary induction for the append arm of `setCondition`. -/
theorem find_skips_other_types (t : String) :
    ∀ cs : List Condition, cs.any (fun x => x.ctype == t) = false →
      ∀ ds : List Condition,
        (cs ++ ds).find? (fun d => d.ctype == t) = ds.find? (fun d => d.ctype == t) := by
  intro cs
  induction cs with
  | nil => intro _ ds; simp
  | cons x xs ih =>
    intro h ds
    rw [List.any_cons, Bool.or_eq_false_iff] at h
    simpa [List.find?_cons, h.1] using ih h.2 ds

/-- Setting a condition makes it the one returned by a lookup for its
type, whether it replaced an old condition or was appended. -/
theorem getCondition_setCondition (cs : List Condition) (c : Condition) :
    getCondition (setCondition cs c) c.ctype = some c := by
  unfold getCondition setCondition
  cases h : cs.any (fun x => x.ctype == c.ctype) with
  | true => simpa [h] using find_replaced_condition c cs h
  | false =>
    simp only [h, Bool.false_eq_true, if_false]
    rw [find_skips_other_types c.ctype cs h]
    simp [List.find?_cons]

/-- setStatusConditions leaves the Spec untouched. -/
theorem setStatusConditions_spec (i : EKSCluster) (cs : List Condition) :
    (setStatusConditions i cs).spec = i.spec := rfl

/-- addFinalizer leaves the Spec untouched. -/
theorem addFinalizer_spec (i : EKSCluster) (f : String) :
    (addFinalizer i f).spec = i.spec := by
  unfold addFinalizer; split <;> rfl

/-- addFinalizer leaves the deletion timestamp untouched. -/
theorem addFinalizer_deletionTimestamp (i : EKSCluster) (f : String) :
    (addFinalizer i f).deletionTimestamp = i.deletionTimestamp := by
  unfold addFinalizer; split <;> rfl

/-- addFinalizer leaves the status untouched. -/
theorem addFinalizer_status (i : EKSCluster) (f : String) :
    (addFinalizer i f).status = i.status := by
  unfold addFinalizer; split <;> rfl

/-- The create branch never writes the Spec. -/
theorem createBranch_spec (r : EKSClusterExt × Option AWSErr) (i : EKSCluster) :
    (createBranch r i).1.spec = i.spec := by
  unfold createBranch
  rcases r with ⟨c, e⟩
  cases e with
  | none => rfl
  | some e =>
    cases h1 : isErrorAlreadyExists e <;>
      cases h2 : isErrorBadRequest e <;>
        simp [h1, h2, fail, setStatusConditions]

/-- The sync branch never writes the Spec. -/
theorem syncBranch_spec (o : SyncOracle) (i : EKSCluster) :
    (syncBranch o i).1.spec = i.spec := by
  unfold syncBranch fail
  rcases o with ⟨g, cw, gw, aa, se⟩
  cases g <;> dsimp only
  · rfl
  · split
    · rfl
    · split
      · cases cw <;> dsimp only
        · rfl
        · rfl
      · cases gw <;> dsimp only
        · rfl
        · split
          · rfl
          · split
            · rfl
            · cases aa <;> dsimp only
              · cases se <;> rfl
              · rfl

/-- The delete branch never writes the Spec. -/
theorem deleteBranch_spec (mR wR : Option AWSErr) (i : EKSCluster) :
    (deleteBranch mR wR i).1.spec = i.spec := by
  unfold deleteBranch fail
  dsimp only
  repeat' split
  all_goals rfl

/-- Setting a ReconcileError condition makes it the Synced condition. -/
theorem getCondition_synced_error (cs : List Condition) (m : String) :
    getCondition (setCondition cs (reconcileError m)) "Synced" = some (reconcileError m) :=
  getCondition_setCondition cs (reconcileError m)

/-- Setting ReconcileSuccess makes it the Synced condition. -/
theorem getCondition_synced_success (cs : List Condition) :
    getCondition (setCondition cs reconcileSuccess) "Synced" = some reconcileSuccess :=
  getCondition_setCondition cs reconcileSuccess

/-- Setting Available makes it the Ready condition. -/
theorem getCondition_ready_available (cs : List Condition) :
    getCondition (setCondition cs condAvailable) "Ready" = some condAvailable :=
  getCondition_setCondition cs condAvailable

/-- C4 counterexample: at a concrete deleting resource with a recorded
worker stack and every deletion succeeding, the Delete branch issues the
master (primary) deletion first and the worker-stack (secondary)
deletion second, so the secondary deletion is not requested before the
primary one as the claim states. -/
theorem c4_counterexample :
    (deleteBranch none none instDeleting).2.2
      = [DeleteCall.master "eks-u1", DeleteCall.workers "stack-1"]
    ∧ List.head? ((deleteBranch none none instDeleting).2.2)
        ≠ some (DeleteCall.workers "stack-1") := by
  decide

/-- C4 (amended): in the Delete branch under the ReclaimDelete policy,
deletion of the primary resource (the EKS cluster master) is requested
first, and deletion of the secondary resource (the worker
CloudFormation stack) is requested second, and only when a stack ID is
recorded in Status. -/
theorem c4_delete_order_master_then_workers (mR wR : Option AWSErr) (i : EKSCluster)
    (hr : i.spec.reclaimDelete = true) :
    (deleteBranch mR wR i).2.2
      = [DeleteCall.master i.status.clusterName]
        ++ (if i.status.cloudFormationStackID ≠ "" then
              [DeleteCall.workers i.status.cloudFormationStackID]
            else []) := by
  unfold deleteBranch
  dsimp only
  rw [if_pos (show (setStatusConditions i [condDeleting]).spec.reclaimDelete = true from hr)]
  repeat' split
  all_goals simp_all [setStatusConditions]

/-- C4 witness: the amended order theorem evaluated on the concrete
deleting resource. -/
theorem c4_delete_order_witness :
    instDeleting.spec.reclaimDelete = true
    ∧ (deleteBranch none none instDeleting).2.2
        = [DeleteCall.master instDeleting.status.clusterName]
          ++ (if instDeleting.status.cloudFormationStackID ≠ "" then
                [DeleteCall.workers instDeleting.status.cloudFormationStackID]
              else []) :=
  ⟨by decide, c4_delete_order_master_then_workers none none instDeleting (by decide)⟩

/-- C5: under the ReclaimDelete policy with a worker stack recorded, the
Delete branch accumulates deletion errors rather than short-circuiting:
when both deletions fail hard the pass fails once with the comma-joined
combined message naming both failures; when only one fails its message
is reported alone and the other failure is not hidden; in every failing
case the finalizer is kept and the pass requeues after the short wait;
the finalizer is removed exactly when both deletions report success or
not-found, and then ReconcileSuccess is set. -/
theorem c5_delete_errors_accumulated (i : EKSCluster) (m w : String)
    (hr : i.spec.reclaimDelete = true)
    (hs : i.status.cloudFormationStackID ≠ "") :
    (getCondition ((deleteBranch (some (.other m)) (some (.other w)) i).1.status.conditions) "Synced"
        = some (reconcileError ("Master Delete Error: " ++ m ++ ", " ++ ("Worker Delete Error: " ++ w)))
      ∧ (deleteBranch (some (.other m)) (some (.other w)) i).1.finalizers = i.finalizers
      ∧ (deleteBranch (some (.other m)) (some (.other w)) i).2.1 = ⟨false, aShortWait⟩)
    ∧ (getCondition ((deleteBranch (some (.other m)) none i).1.status.conditions) "Synced"
        = some (reconcileError ("Master Delete Error: " ++ m))
      ∧ (deleteBranch (some (.other m)) none i).1.finalizers = i.finalizers)
    ∧ (getCondition ((deleteBranch none (some (.other w)) i).1.status.conditions) "Synced"
        = some (reconcileError ("Worker Delete Error: " ++ w))
      ∧ (deleteBranch none (some (.other w)) i).1.finalizers = i.finalizers)
    ∧ (∀ mR wR : Option AWSErr,
        (mR = none ∨ mR = some AWSErr.notFound) →
        (wR = none ∨ wR = some AWSErr.notFound) →
        (deleteBranch mR wR i).1.finalizers = i.finalizers.filter (fun x => x ≠ finalizer)
        ∧ getCondition ((deleteBranch mR wR i).1.status.conditions) "Synced"
            = some reconcileSuccess) := by
  refine ⟨⟨?_, ?_, ?_⟩, ⟨?_, ?_⟩, ⟨?_, ?_⟩, ?_⟩
  · simp [deleteBranch, fail, setStatusConditions, joinStrings, hr, hs,
      isErrorNotFound, errMessage, getCondition_synced_error]
  · simp [deleteBranch, fail, setStatusConditions, hr, hs, isErrorNotFound]
  · simp [deleteBranch, fail, setStatusConditions, hr, hs, isErrorNotFound]
  · simp [deleteBranch, fail, setStatusConditions, joinStrings, hr, hs,
      isErrorNotFound, errMessage, getCondition_synced_error]
  · simp [deleteBranch, fail, setStatusConditions, hr, hs, isErrorNotFound]
  · simp [deleteBranch, fail, setStatusConditions, joinStrings, hr, hs,
      isErrorNotFound, errMessage, getCondition_synced_error]
  · simp [deleteBranch, fail, setStatusConditions, hr, hs, isErrorNotFound]
  · rintro mR wR (rfl | rfl) (rfl | rfl) <;>
      refine ⟨?_, ?_⟩ <;>
        simp [deleteBranch, fail, setStatusConditions, removeFinalizer, hr, hs,
          isErrorNotFound, getCondition_synced_success]

/-- C5 witness: the accumulation theorem evaluated at the concrete
deleting resource with both deletions failing. -/
theorem c5_delete_errors_witness :
    (instDeleting.spec.reclaimDelete = true ∧ instDeleting.status.cloudFormationStackID ≠ "")
    ∧ getCondition ((deleteBranch (some (.other "boomM")) (some (.other "boomW")) instDeleting).1.status.conditions) "Synced"
        = some (reconcileError ("Master Delete Error: " ++ "boomM" ++ ", " ++ ("Worker Delete Error: " ++ "boomW")))
    ∧ (deleteBranch (some (.other "boomM")) (some (.other "boomW")) instDeleting).1.finalizers
        = instDeleting.finalizers :=
  ⟨⟨by decide, by decide⟩,
    (c5_delete_errors_accumulated instDeleting "boomM" "boomW" (by decide) (by decide)).1.1,
    (c5_delete_errors_accumulated instDeleting "boomM" "boomW" (by decide) (by decide)).1.2.1⟩

/-- C6: when the provider answers Create with an already-exists error, the
create branch behaves exactly as on a plain success: same output as the
nil-error case, ReconcileSuccess (not ReconcileError) on the Synced
condition, a short-wait requeue, the CREATING state recorded, and a
non-empty cluster name recorded in Status — which makes every later
pass dispatch to the Sync branch instead of issuing another Create. -/
theorem c6_create_already_exists (c : EKSClusterExt) (i : EKSCluster) :
    createBranch (c, some AWSErr.alreadyExists) i = createBranch (c, none) i
    ∧ (createBranch (c, some AWSErr.alreadyExists) i).2 = ⟨false, aShortWait⟩
    ∧ getCondition ((createBranch (c, some AWSErr.alreadyExists) i).1.status.conditions) "Synced"
        = some reconcileSuccess
    ∧ (createBranch (c, some AWSErr.alreadyExists) i).1.status.state = "CREATING"
    ∧ (createBranch (c, some AWSErr.alreadyExists) i).1.status.clusterName
        = clusterNamePrefix ++ i.uid
    ∧ (createBranch (c, some AWSErr.alreadyExists) i).1.status.clusterName ≠ "" := by
  refine ⟨rfl, rfl, ?_, rfl, rfl, ?_⟩
  · simp [createBranch, setStatusConditions, isErrorAlreadyExists, getCondition_synced_success]
  · show clusterNamePrefix ++ i.uid ≠ ""
    intro h
    have h2 := congrArg String.length h
    rw [String.length_append] at h2
    simp at h2
    exact (by decide : ¬ clusterNamePrefix.length = 0) h2.1

/-- C7: when the provider answers both deletions with not-found, the
Delete branch records no error: the finalizer is removed (deletion may
complete), ReconcileSuccess is set, and the pass does not requeue; the
IAMRolePolicyAttachment Delete likewise returns success on a
NoSuchEntity answer. -/
theorem c7_delete_not_found_success (i : EKSCluster) (cr : IAMRolePolicyAttachment)
    (hr : i.spec.reclaimDelete = true) :
    (deleteBranch (some AWSErr.notFound) (some AWSErr.notFound) i).1.finalizers
        = i.finalizers.filter (fun x => x ≠ finalizer)
    ∧ finalizer ∉ (deleteBranch (some AWSErr.notFound) (some AWSErr.notFound) i).1.finalizers
    ∧ getCondition ((deleteBranch (some AWSErr.notFound) (some AWSErr.notFound) i).1.status.conditions) "Synced"
        = some reconcileSuccess
    ∧ (deleteBranch (some AWSErr.notFound) (some AWSErr.notFound) i).2.1 = ⟨false, 0⟩
    ∧ (iamDelete (some IAMErr.noSuchEntity) cr).2.2 = none := by
  refine ⟨?_, ?_, ?_, ?_, ?_⟩
  · simp [deleteBranch, removeFinalizer, setStatusConditions, hr, isErrorNotFound]
  · simp [deleteBranch, removeFinalizer, setStatusConditions, hr, isErrorNotFound,
      List.mem_filter]
  · simp [deleteBranch, removeFinalizer, setStatusConditions, hr, isErrorNotFound,
      getCondition_synced_success]
  · simp [deleteBranch, removeFinalizer, setStatusConditions, hr, isErrorNotFound]
  · simp [iamDelete, isErrNoSuchEntity]

/-- crSpecB is a concrete attachment resource desiring policy arn:B while
arn:A is recorded as attached, with the Ready condition left at
Creating by an earlier Create pass. -/
def crSpecB : IAMRolePolicyAttachment := ⟨"arn:B", "role1", "arn:A", [condCreating]⟩

/-- C7 witness: the not-found-success theorem evaluated at the concrete
deleting resource. -/
theorem c7_delete_not_found_witness :
    instDeleting.spec.reclaimDelete = true
    ∧ ((deleteBranch (some AWSErr.notFound) (some AWSErr.notFound) instDeleting).1.finalizers
        = instDeleting.finalizers.filter (fun x => x ≠ finalizer)
      ∧ finalizer ∉ (deleteBranch (some AWSErr.notFound) (some AWSErr.notFound) instDeleting).1.finalizers
      ∧ getCondition ((deleteBranch (some AWSErr.notFound) (some AWSErr.notFound) instDeleting).1.status.conditions) "Synced"
          = some reconcileSuccess
      ∧ (deleteBranch (some AWSErr.notFound) (some AWSErr.notFound) instDeleting).2.1 = ⟨false, 0⟩
      ∧ (iamDelete (some IAMErr.noSuchEntity) crSpecB).2.2 = none) :=
  ⟨by decide, c7_delete_not_found_success instDeleting crSpecB (by decide)⟩

/-- C9: a bad-request (terminal validation) answer to Create sets the
ReconcileError condition and returns an empty result — no
requeue-after delay, so only the status write itself triggers a retry —
while any other (transient) error goes through the fail helper and
requeues after the short wait with the same ReconcileError condition. -/
theorem c9_bad_request_no_requeue_after (c : EKSClusterExt) (i : EKSCluster) (m : String) :
    (createBranch (c, some AWSErr.badRequest) i).2 = ⟨false, 0⟩
    ∧ getCondition ((createBranch (c, some AWSErr.badRequest) i).1.status.conditions) "Synced"
        = some (reconcileError (errMessage AWSErr.badRequest))
    ∧ (createBranch (c, some (AWSErr.other m)) i).2 = ⟨false, aShortWait⟩
    ∧ getCondition ((createBranch (c, some (AWSErr.other m)) i).1.status.conditions) "Synced"
        = some (reconcileError m) := by
  refine ⟨rfl, ?_, rfl, ?_⟩ <;>
    simp [createBranch, fail, setStatusConditions, isErrorAlreadyExists, isErrorBadRequest,
      errMessage, getCondition_synced_error]

/-- setStatusConditions leaves the deletion timestamp untouched. -/
theorem setStatusConditions_deletionTimestamp (i : EKSCluster) (cs : List Condition) :
    (setStatusConditions i cs).deletionTimestamp = i.deletionTimestamp := rfl

/-- C1 counterexample: at a concrete resource whose DeletionRequested
marker is set but whose reference resolution is blocked, the pass does
not run the Delete branch: the Delete branch always sets the Deleting
condition as its first step, yet the pass output carries no Ready
condition at all, and the pass output differs from the Delete-branch
output; the pass instead returns the blocked-resolution result. -/
theorem c1_counterexample :
    instDeleting.deletionTimestamp.isSome = true
    ∧ getCondition ((Reconciler.reconcile reconcilerBlocked instDeleting).1.status.conditions) "Ready"
        = none
    ∧ getCondition ((reconcilerBlocked.delete instDeleting).1.status.conditions) "Ready"
        = some condDeleting
    ∧ (Reconciler.reconcile reconcilerBlocked instDeleting).1
        ≠ (reconcilerBlocked.delete instDeleting).1 := by
  decide

/-- C1 (amended): a pass over a resource with DeletionRequested set runs
the Delete branch only when reference resolution does not fail: either
the references-resolved condition was already recorded, or resolution
succeeds this pass; when resolution fails blocked, the pass returns the
blocked-resolution result without reaching the Delete branch. -/
theorem c1_delete_gated_by_resolution (r : Reconciler) (inst res : EKSCluster)
    (hc : r.connectErr = none)
    (hd : inst.deletionTimestamp.isSome = true)
    (hdr : res.deletionTimestamp.isSome = true) :
    (isConditionTrue (getCondition inst.status.conditions "ReferencesResolved") = true →
      r.reconcile inst = r.delete (addFinalizer inst finalizer))
    ∧ (isConditionTrue (getCondition inst.status.conditions "ReferencesResolved") = false →
       r.resolveReferences inst = .ok res →
       r.reconcile inst
         = r.delete (addFinalizer (setStatusConditions res [referenceResolutionSuccess]) finalizer))
    ∧ (∀ m : String,
       isConditionTrue (getCondition inst.status.conditions "ReferencesResolved") = false →
       r.resolveReferences inst = .error (.access m) →
       r.reconcile inst = (setStatusConditions inst [referenceResolutionBlocked m], ⟨false, aLongWait⟩)) := by
  refine ⟨?_, ?_, ?_⟩
  · intro h
    simp [Reconciler.reconcile, hc, h, addFinalizer_deletionTimestamp, hd]
  · intro h hok
    simp [Reconciler.reconcile, hc, h, hok, addFinalizer_deletionTimestamp,
      setStatusConditions_deletionTimestamp, hdr]
  · intro m h herr
    simp [Reconciler.reconcile, hc, h, herr, isReferencesAccessError, refErrMessage]

/-- instDeletingResolved is the concrete deleting resource after an
earlier pass recorded the references-resolved condition. -/
def instDeletingResolved : EKSCluster :=
  ⟨"u1", some "2019-10-22", [finalizer], sampleSpec,
    ⟨[referenceResolutionSuccess], "ACTIVE", "eks-u1", "1.14", "", "stack-1", false⟩⟩

/-- C1 witness: the amended gating theorem evaluated at the concrete
deleting resource whose references-resolved condition is recorded. -/
theorem c1_delete_gated_witness :
    (reconcilerBlocked.connectErr = none
      ∧ instDeletingResolved.deletionTimestamp.isSome = true
      ∧ isConditionTrue (getCondition instDeletingResolved.status.conditions "ReferencesResolved") = true)
    ∧ Reconciler.reconcile reconcilerBlocked instDeletingResolved
        = reconcilerBlocked.delete (addFinalizer instDeletingResolved finalizer) :=
  ⟨⟨rfl, by decide, by decide⟩,
    (c1_delete_gated_by_resolution reconcilerBlocked instDeletingResolved instDeletingResolved
      rfl (by decide) (by decide)).1 (by decide)⟩

/-- C2 counterexample: at a concrete non-deleting resource whose
resolution is blocked, the pass requeues after the long wait, not after
the short wait that transient waiting (the fail helper) uses, refuting
the claimed short-delay requeue. -/
theorem c2_counterexample :
    (Reconciler.reconcile reconcilerBlocked instFresh).2.requeueAfter = aLongWait
    ∧ aLongWait ≠ aShortWait
    ∧ (fail instFresh "transient provider error").2.requeueAfter = aShortWait := by
  decide

/-- C2 (amended): when resolution is blocked (a references-access error),
the pass sets the distinguished ReferenceResolutionBlocked condition
(not the generic ReconcileError), never invokes the Create, Sync or
Delete branch (the output is a fixed value independent of all three
branch functions), and requeues after the LONG wait — not the short
transient-wait delay. -/
theorem c2_blocked_distinguished_long_requeue
    (createFn syncFn deleteFn : EKSCluster → EKSCluster × ReconcileResult)
    (resolve : EKSCluster → Except RefErr EKSCluster) (inst : EKSCluster) (m : String)
    (hres : isConditionTrue (getCondition inst.status.conditions "ReferencesResolved") = false)
    (hblocked : resolve inst = .error (.access m)) :
    Reconciler.reconcile ⟨createFn, syncFn, deleteFn, resolve, none⟩ inst
      = (setStatusConditions inst [referenceResolutionBlocked m], ⟨false, aLongWait⟩)
    ∧ (Reconciler.reconcile ⟨createFn, syncFn, deleteFn, resolve, none⟩ inst).2.requeueAfter
        ≠ aShortWait := by
  constructor
  · simp [Reconciler.reconcile, hres, hblocked, isReferencesAccessError, refErrMessage]
  · simp [Reconciler.reconcile, hres, hblocked, isReferencesAccessError, refErrMessage,
      aLongWait, aShortWait]

/-- C2 witness: the blocked-resolution theorem evaluated at the concrete
fresh resource with the wired branches. -/
theorem c2_blocked_witness :
    (isConditionTrue (getCondition instFresh.status.conditions "ReferencesResolved") = false
      ∧ blockedResolve instFresh = .error (.access "referenced resource is not ready"))
    ∧ (Reconciler.reconcile ⟨createBranch (clusterExt0, none), syncBranch syncOracle0,
          (fun i => ((deleteBranch none none i).1, (deleteBranch none none i).2.1)),
          blockedResolve, none⟩ instFresh
        = (setStatusConditions instFresh
            [referenceResolutionBlocked "referenced resource is not ready"], ⟨false, aLongWait⟩)
      ∧ (Reconciler.reconcile ⟨createBranch (clusterExt0, none), syncBranch syncOracle0,
            (fun i => ((deleteBranch none none i).1, (deleteBranch none none i).2.1)),
            blockedResolve, none⟩ instFresh).2.requeueAfter ≠ aShortWait) :=
  ⟨⟨by decide, rfl⟩,
    c2_blocked_distinguished_long_requeue (createBranch (clusterExt0, none))
      (syncBranch syncOracle0)
      (fun i => ((deleteBranch none none i).1, (deleteBranch none none i).2.1))
      blockedResolve instFresh "referenced resource is not ready" (by decide) rfl⟩

/-- C3: once a pass has recorded the references-resolved condition as
True, every later pass skips resolution entirely — the pass output does
not depend on the resolver at all, so no referencer Build or Assign
runs — and the literal Spec values assigned earlier are unchanged by
the pass (no branch of the wired loop writes the Spec). -/
theorem c3_resolution_skipped_when_condition_true (createRes : EKSClusterExt × Option AWSErr)
    (mR wR : Option AWSErr) (so : SyncOracle)
    (resolveA resolveB : EKSCluster → Except RefErr EKSCluster) (inst : EKSCluster)
    (hres : isConditionTrue (getCondition inst.status.conditions "ReferencesResolved") = true) :
    Reconciler.reconcile (mkReconciler createRes mR wR so resolveA) inst
      = Reconciler.reconcile (mkReconciler createRes mR wR so resolveB) inst
    ∧ (Reconciler.reconcile (mkReconciler createRes mR wR so resolveA) inst).1.spec
        = inst.spec := by
  constructor
  · simp [Reconciler.reconcile, mkReconciler, hres]
  · have h1 : Reconciler.reconcile (mkReconciler createRes mR wR so resolveA) inst
        = (if (addFinalizer inst finalizer).deletionTimestamp.isSome then
             ((deleteBranch mR wR (addFinalizer inst finalizer)).1,
              (deleteBranch mR wR (addFinalizer inst finalizer)).2.1)
           else if (addFinalizer inst finalizer).status.clusterName == "" then
             createBranch createRes (addFinalizer inst finalizer)
           else syncBranch so (addFinalizer inst finalizer)) := by
      simp [Reconciler.reconcile, mkReconciler, hres]
    rw [h1]
    split
    · simp [deleteBranch_spec, addFinalizer_spec]
    · split
      · simp [createBranch_spec, addFinalizer_spec]
      · simp [syncBranch_spec, addFinalizer_spec]

/-- C3 witness: the skip theorem evaluated at the concrete resolved
deleting resource, contrasting the blocked resolver with a resolver
that would fail otherwise. -/
theorem c3_resolution_skipped_witness :
    isConditionTrue (getCondition instDeletingResolved.status.conditions "ReferencesResolved") = true
    ∧ (Reconciler.reconcile (mkReconciler (clusterExt0, none) none none syncOracle0 blockedResolve)
          instDeletingResolved
        = Reconciler.reconcile (mkReconciler (clusterExt0, none) none none syncOracle0
            (fun _ => Except.error (RefErr.other "boom"))) instDeletingResolved
      ∧ (Reconciler.reconcile (mkReconciler (clusterExt0, none) none none syncOracle0 blockedResolve)
            instDeletingResolved).1.spec = instDeletingResolved.spec) :=
  ⟨by decide,
    c3_resolution_skipped_when_condition_true (clusterExt0, none) none none syncOracle0
      blockedResolve (fun _ => Except.error (RefErr.other "boom")) instDeletingResolved (by decide)⟩

/-- C8: for an attachment whose Status records arn-A attached while the
Spec desires arn-B, Update issues exactly an attach of B followed by a
detach of A (the minimal delta — no full replace, and a failed attach
stops before the detach), leaves the resource record and hence the
Ready=False/Creating condition untouched, and a later Observe that
finds B attached reports the resource as existing and sets the Ready
condition to True/Available. -/
theorem c8_update_attach_b_detach_a (role a b : String) (cs : List Condition)
    (ha : a ≠ "") (hab : a ≠ b) :
    (iamUpdate none none ⟨b, role, a, cs⟩).2.1
        = [IAMCall.attach role b, IAMCall.detach role a]
    ∧ (iamUpdate none none ⟨b, role, a, cs⟩).1 = ⟨b, role, a, cs⟩
    ∧ (iamUpdate (some (.other "boom")) none ⟨b, role, a, cs⟩).2.1 = [IAMCall.attach role b]
    ∧ getCondition ((iamUpdate none none ⟨b, role, a, cs⟩).1).conditions "Ready"
        = getCondition cs "Ready"
    ∧ (iamObserve (.ok [b]) ((iamUpdate none none ⟨b, role, a, cs⟩).1)).2.1 = true
    ∧ getCondition ((iamObserve (.ok [b]) ((iamUpdate none none ⟨b, role, a, cs⟩).1)).1).conditions "Ready"
        = some condAvailable := by
  refine ⟨?_, ?_, ?_, ?_, ?_, ?_⟩ <;>
    simp [iamUpdate, iamObserve, ha, hab, List.find?_cons, getCondition_ready_available]

/-- C8 witness: the diff-and-reconcile theorem evaluated at the concrete
attachment with Ready=False/Creating recorded. -/
theorem c8_update_attach_detach_witness :
    ("arn:A" ≠ "" ∧ "arn:A" ≠ "arn:B")
    ∧ ((iamUpdate none none crSpecB).2.1
        = [IAMCall.attach "role1" "arn:B", IAMCall.detach "role1" "arn:A"]
      ∧ (iamUpdate none none crSpecB).1 = crSpecB
      ∧ (iamUpdate (some (.other "boom")) none crSpecB).2.1 = [IAMCall.attach "role1" "arn:B"]
      ∧ getCondition ((iamUpdate none none crSpecB).1).conditions "Ready"
          = getCondition [condCreating] "Ready"
      ∧ (iamObserve (.ok ["arn:B"]) ((iamUpdate none none crSpecB).1)).2.1 = true
      ∧ getCondition ((iamObserve (.ok ["arn:B"]) ((iamUpdate none none crSpecB).1)).1).conditions "Ready"
          = some condAvailable) :=
  ⟨⟨by decide, by decide⟩,
    c8_update_attach_b_detach_a "role1" "arn:A" "arn:B" [condCreating] (by decide) (by decide)⟩

/-- C10: when the Status records no attached policy, or the recorded
policy already equals the desired one, Update is a complete no-op
success: no attach and no detach is issued (in particular the desired
policy is not attached), the resource is unchanged and no error is
returned, whatever the provider oracles would answer. -/
theorem c10_update_noop_when_status_empty_or_equal (cr : IAMRolePolicyAttachment)
    (attachErr detachErr : Option IAMErr)
    (h : cr.statusAttachedPolicyARN = "" ∨ cr.statusAttachedPolicyARN = cr.specPolicyARN) :
    iamUpdate attachErr detachErr cr = (cr, [], none) := by
  unfold iamUpdate
  rcases h with h | h <;> simp [h]

/-- crEmptyStatus is a concrete attachment with a desired policy but no
policy recorded as attached. -/
def crEmptyStatus : IAMRolePolicyAttachment := ⟨"arn:P", "role1", "", []⟩

/-- C10 witness: the no-op theorem evaluated at the concrete attachment
with an empty status. -/
theorem c10_update_noop_witness :
    (crEmptyStatus.statusAttachedPolicyARN = ""
      ∨ crEmptyStatus.statusAttachedPolicyARN = crEmptyStatus.specPolicyARN)
    ∧ iamUpdate (some (.other "boom")) (some (.other "boom")) crEmptyStatus
        = (crEmptyStatus, [], none) :=
  ⟨Or.inl (by decide),
    c10_update_noop_when_status_empty_or_equal crEmptyStatus
      (some (.other "boom")) (some (.other "boom")) (Or.inl (by decide))⟩
